import Mathlib

/-!
Verification of the TMDB query CLI (src/tmdb_cli.py): the pattern matcher,
the pattern-action dispatcher `search_pa_list`, the query handlers and the
console loop `query_loop`, embedded as pure Lean functions.  The HTTP layer
is represented by an oracle (`Api`) giving each endpoint's parsed JSON
response, with `none` standing for a request that raises an exception.
-/

namespace TmdbCli

/-- Joins a list of strings with single spaces, as Python joins tokens with
a space separator when a multi-wildcard capture is produced. -/
def joinSpace : List String → String
  | [] => ""
  | [x] => x
  | x :: xs => x ++ " " ++ joinSpace xs

/-- Modelled from the spec: helper for the multi-wildcard branch of the matcher
(the module match.py is imported by src/tmdb_cli.py but its file is not under
src/).  Starting from the already captured tokens acc, extend the capture one
token at a time (shortest capture first) and accept the first split at which
the rest of the template, represented by the continuation f, matches the rest
of the input.  The capture must take at least one token. -/
def multiScan (f : List String → Option (List String)) : List String → List String → Option (List String)
  | _, [] => none
  | acc, s :: sr =>
    match f sr with
    | some bs => some (joinSpace (acc ++ [s]) :: bs)
    | none => multiScan f (acc ++ [s]) sr

/-- Modelled from the spec: the recursive matcher match(pattern, source) of
match.py (not under src/).  A template token "_" is the single-token wildcard,
"%" the multi-token wildcard capturing one or more contiguous tokens joined
with spaces (shortest split that lets the rest of the template match); any
other token is a literal compared by string equality.  Returns the bindings
in wildcard order, or none when the input does not conform. -/
def matchFn : List String → List String → Option (List String)
  | [], src => if src.isEmpty then some [] else none
  | p :: pr, src =>
    if p = "%" then multiScan (matchFn pr) [] src
    else
      match src with
      | [] => none
      | s :: sr =>
        if p = "_" then (matchFn pr sr).map (fun bs => s :: bs)
        else if p = s then matchFn pr sr else none

/-! ## Python primitives used by the CLI -/

/-- Python exceptions that the embedded code can raise. -/
inductive Exc where
  | valueError
  | indexError
  | keyboardInterrupt
deriving DecidableEq, Repr

/-- Python list indexing ls[i]: the element, or an IndexError. -/
def getIdx (ls : List String) (i : Nat) : Except Exc String :=
  match ls.get? i with
  | some x => Except.ok x
  | none => Except.error Exc.indexError

/-- Python str.split() with no separator: split on runs of whitespace,
dropping empty pieces.  Auxiliary over the character list, acc holds the
current word reversed. -/
def pySplitAux : List Char → List Char → List String
  | acc, [] => if acc.isEmpty then [] else [String.mk acc.reverse]
  | acc, c :: cs =>
    if c.isWhitespace then
      if acc.isEmpty then pySplitAux [] cs
      else String.mk acc.reverse :: pySplitAux [] cs
    else pySplitAux (c :: acc) cs

/-- Python str.split() with no separator. -/
def pySplit (s : String) : List String := pySplitAux [] s.data

/-- Python str.replace of every question mark with the empty string. -/
def removeQ (s : String) : String := String.mk (s.data.filter (fun c => c ≠ '?'))

/-- Python str.lower restricted to ASCII letters (every character appearing in
the CLI examples); non-ASCII case mapping is out of scope for this model. -/
def pyLower (s : String) : String := String.mk (s.data.map Char.toLower)

/-- Python str.startswith. -/
def pyStartsWith (pre s : String) : Bool := pre.data.isPrefixOf s.data

/-- Digit run accumulator for pyInt. -/
def parseDigits : List Char → Nat → Option Nat
  | [], acc => some acc
  | c :: cs, acc =>
    if c.isDigit then parseDigits cs (acc * 10 + (c.toNat - '0'.toNat))
    else none

/-- Python int(str) on the strings occurring here: surrounding whitespace is
stripped, an optional sign is allowed, then one or more ASCII digits; anything
else raises ValueError, modelled by none. -/
def pyInt (s : String) : Option Int :=
  let cs := ((s.data.dropWhile Char.isWhitespace).reverse.dropWhile Char.isWhitespace).reverse
  match cs with
  | [] => none
  | '+' :: ds =>
    if ds.isEmpty then none else (parseDigits ds 0).map Int.ofNat
  | '-' :: ds =>
    if ds.isEmpty then none else (parseDigits ds 0).map (fun n => -(n : Int))
  | ds => (parseDigits ds 0).map Int.ofNat

/-- Python slice ls[:n] with an int bound: nonnegative n keeps the first n
elements, negative n drops the last -n. -/
def pySliceTo (n : Int) (ls : List String) : List String :=
  if 0 ≤ n then ls.take n.toNat else ls.take (ls.length - (-n).toNat)

/-- Python "s".split("-")[0]: the characters before the first dash. -/
def splitDashHead (s : String) : String :=
  String.mk (s.data.takeWhile (fun c => c ≠ '-'))

/-! ## The API oracle and the API helper functions of src/tmdb_cli.py -/

/-- One element of the results array of /search/movie or /discover/movie. -/
structure MovieResult where
  id : Int
  title : String
  release_date : String

/-- One crew credit inside a movie's credits. -/
structure CrewMember where
  name : String
  job : String

/-- One cast credit inside a movie's credits. -/
structure CastMember where
  name : String

/-- The credits object appended to a movie-details response. -/
structure Credits where
  cast : List CastMember
  crew : List CrewMember

/-- A /movie/id detail response; credits is none when the response has no
"credits" key. -/
structure MovieDetails where
  credits : Option Credits

/-- One element of the results array of /search/person. -/
structure PersonResult where
  id : Int

/-- One movie credit of a person; cast credits carry no "job" key. -/
structure PersonCredit where
  title : String
  job : Option String

/-- A /person/id/movie_credits response. -/
structure PersonCredits where
  cast : List PersonCredit
  crew : List PersonCredit

/-- Oracle for the HTTP layer: each field gives the parsed JSON of one
endpoint, and none models a request that raises (network or HTTP error). -/
structure Api where
  searchMovie : String → Option (List MovieResult)
  movieDetails : Int → Option MovieDetails
  discoverByYear : String → Option (List MovieResult)
  discoverByRange : String → String → Option (List MovieResult)
  searchPerson : String → Option (List PersonResult)
  personCredits : Int → Option PersonCredits

/-- An API on which every request fails. -/
def emptyApi : Api :=
  ⟨fun _ => none, fun _ => none, fun _ => none, fun _ _ => none, fun _ => none, fun _ => none⟩

/-- An API whose discover-by-year endpoint returns one movie whose title is
the literal not-understood sentinel string. -/
def apiSentinel : Api :=
  ⟨fun _ => none, fun _ => none, fun _ => some [⟨0, "I don't understand", ""⟩],
   fun _ _ => none, fun _ => none, fun _ => none⟩

/-- An API whose discover-by-year endpoint returns eleven movies. -/
def apiEleven : Api :=
  ⟨fun _ => none, fun _ => none, fun _ => some (List.replicate 11 ⟨0, "t", ""⟩),
   fun _ _ => none, fun _ => none, fun _ => none⟩

/-- search_movies_by_title: empty key short-circuits to []; a raising request
is caught and downgraded to []. -/
def search_movies_by_title (api : Api) (key : String) (title : String) : List MovieResult :=
  if key = "" then [] else (api.searchMovie title).getD []

/-- get_movie_details: empty key short-circuits to None; a raising request is
caught and downgraded to None. -/
def get_movie_details (api : Api) (key : String) (movie_id : Int) : Option MovieDetails :=
  if key = "" then none else api.movieDetails movie_id

/-- search_movies_by_year. -/
def search_movies_by_year (api : Api) (key : String) (year : String) : List MovieResult :=
  if key = "" then [] else (api.discoverByYear year).getD []

/-- search_movies_by_year_range. -/
def search_movies_by_year_range (api : Api) (key : String) (startYear endYear : String) : List MovieResult :=
  if key = "" then [] else (api.discoverByRange startYear endYear).getD []

/-- search_person. -/
def search_person (api : Api) (key : String) (name : String) : List PersonResult :=
  if key = "" then [] else (api.searchPerson name).getD []

/-- get_movies_by_person: data.get(role, []) picks the cast or crew list. -/
def get_movies_by_person (api : Api) (key : String) (person_id : Int) (role : String) : List PersonCredit :=
  if key = "" then []
  else
    match api.personCredits person_id with
    | none => []
    | some d => if role = "cast" then d.cast else if role = "crew" then d.crew else []

/-! ## Action functions (handlers) of src/tmdb_cli.py -/

/-- title_by_year: titles of the first 10 movies of that year. -/
def title_by_year (api : Api) (key : String) (ms : List String) : Except Exc (List String) :=
  match getIdx ms 0 with
  | Except.error e => Except.error e
  | Except.ok year =>
    let movies := search_movies_by_year api key year
    if movies.isEmpty then Except.ok ["No answers"]
    else Except.ok ((movies.take 10).map (fun m => m.title))

/-- title_by_year_range: titles of the first 10 movies in the range. -/
def title_by_year_range (api : Api) (key : String) (ms : List String) : Except Exc (List String) :=
  match getIdx ms 0 with
  | Except.error e => Except.error e
  | Except.ok startYear =>
    match getIdx ms 1 with
    | Except.error e => Except.error e
    | Except.ok endYear =>
      let movies := search_movies_by_year_range api key startYear endYear
      if movies.isEmpty then Except.ok ["No answers"]
      else Except.ok ((movies.take 10).map (fun m => m.title))

/-- title_before_year: int(matches[0]) runs first, so a non-integer binding
raises ValueError before any API interaction. -/
def title_before_year (api : Api) (key : String) (ms : List String) : Except Exc (List String) :=
  match getIdx ms 0 with
  | Except.error e => Except.error e
  | Except.ok ys =>
    match pyInt ys with
    | none => Except.error Exc.valueError
    | some year =>
      let movies := search_movies_by_year_range api key "1900" (toString (year - 1))
      if movies.isEmpty then Except.ok ["No answers"]
      else Except.ok ((movies.take 10).map (fun m => m.title))

/-- title_after_year: int(matches[0]) runs first; the upper bound is the
hard-coded current year 2025. -/
def title_after_year (api : Api) (key : String) (ms : List String) : Except Exc (List String) :=
  match getIdx ms 0 with
  | Except.error e => Except.error e
  | Except.ok ys =>
    match pyInt ys with
    | none => Except.error Exc.valueError
    | some year =>
      let movies := search_movies_by_year_range api key (toString (year + 1)) "2025"
      if movies.isEmpty then Except.ok ["No answers"]
      else Except.ok ((movies.take 10).map (fun m => m.title))

/-- director_by_title: all crew members of the first search hit whose job is
Director (no truncation in this handler). -/
def director_by_title (api : Api) (key : String) (ms : List String) : Except Exc (List String) :=
  match getIdx ms 0 with
  | Except.error e => Except.error e
  | Except.ok title =>
    match search_movies_by_title api key title with
    | [] => Except.ok ["No answers"]
    | m :: _ =>
      match get_movie_details api key m.id with
      | none => Except.ok ["No answers"]
      | some details =>
        match details.credits with
        | none => Except.ok ["No answers"]
        | some credits =>
          let directors := (credits.crew.filter (fun c => c.job = "Director")).map (fun c => c.name)
          Except.ok (if directors.isEmpty then ["No answers"] else directors)

/-- title_by_director: first 10 directing credits of the first person hit. -/
def title_by_director (api : Api) (key : String) (ms : List String) : Except Exc (List String) :=
  match getIdx ms 0 with
  | Except.error e => Except.error e
  | Except.ok name =>
    match search_person api key name with
    | [] => Except.ok ["No answers"]
    | p :: _ =>
      let movies := get_movies_by_person api key p.id "crew"
      let directorMovies := (movies.filter (fun m => m.job = some "Director")).map (fun m => m.title)
      Except.ok (if directorMovies.isEmpty then ["No answers"] else directorMovies.take 10)

/-- actors_by_title: names of the first 10 cast credits of the first hit. -/
def actors_by_title (api : Api) (key : String) (ms : List String) : Except Exc (List String) :=
  match getIdx ms 0 with
  | Except.error e => Except.error e
  | Except.ok title =>
    match search_movies_by_title api key title with
    | [] => Except.ok ["No answers"]
    | m :: _ =>
      match get_movie_details api key m.id with
      | none => Except.ok ["No answers"]
      | some details =>
        match details.credits with
        | none => Except.ok ["No answers"]
        | some credits =>
          let actors := (credits.cast.take 10).map (fun c => c.name)
          Except.ok (if actors.isEmpty then ["No answers"] else actors)

/-- year_by_title: the year prefix of the first hit's release date. -/
def year_by_title (api : Api) (key : String) (ms : List String) : Except Exc (List String) :=
  match getIdx ms 0 with
  | Except.error e => Except.error e
  | Except.ok title =>
    match search_movies_by_title api key title with
    | [] => Except.ok ["No answers"]
    | m :: _ =>
      if m.release_date = "" then Except.ok ["No answers"]
      else Except.ok [splitDashHead m.release_date]

/-- title_by_actor: titles of the first 10 acting credits of the first hit. -/
def title_by_actor (api : Api) (key : String) (ms : List String) : Except Exc (List String) :=
  match getIdx ms 0 with
  | Except.error e => Except.error e
  | Except.ok name =>
    match search_person api key name with
    | [] => Except.ok ["No answers"]
    | p :: _ =>
      let movies := get_movies_by_person api key p.id "cast"
      let titles := (movies.take 10).map (fun m => m.title)
      Except.ok (if titles.isEmpty then ["No answers"] else titles)

/-- bye_action raises KeyboardInterrupt to end the session. -/
def bye_action (_dummy : List String) : Except Exc (List String) :=
  Except.error Exc.keyboardInterrupt

/-! ## Pattern-action list and dispatcher -/

/-- The pattern-action list, in declaration order; each template string of the
source is written as its whitespace-split token list. -/
def pa_list (api : Api) (key : String) :
    List (List String × (List String → Except Exc (List String))) :=
  [ (["what", "movies", "were", "made", "in", "_"], title_by_year api key),
    (["what", "movies", "were", "made", "between", "_", "and", "_"], title_by_year_range api key),
    (["what", "movies", "were", "made", "before", "_"], title_before_year api key),
    (["what", "movies", "were", "made", "after", "_"], title_after_year api key),
    (["who", "directed", "%"], director_by_title api key),
    (["who", "was", "the", "director", "of", "%"], director_by_title api key),
    (["what", "movies", "were", "directed", "by", "%"], title_by_director api key),
    (["who", "acted", "in", "%"], actors_by_title api key),
    (["when", "was", "%", "made"], year_by_title api key),
    (["in", "what", "movies", "did", "%", "appear"], title_by_actor api key),
    (["bye"], bye_action) ]

/-- The loop body of search_pa_list: walk the table in order, run the first
matching entry's action, coerce a falsy (empty) action result to the
"No answers" sentinel, and fall through to "I don't understand". -/
def searchPaAux : List (List String × (List String → Except Exc (List String))) →
    List String → Except Exc (List String)
  | [], _ => Except.ok ["I don't understand"]
  | (pattern, action) :: rest, src =>
    match matchFn pattern src with
    | some result =>
      match action result with
      | Except.error e => Except.error e
      | Except.ok answers => Except.ok (if answers.isEmpty then ["No answers"] else answers)
    | none => searchPaAux rest src

/-- search_pa_list of src/tmdb_cli.py. -/
def search_pa_list (api : Api) (key : String) (src : List String) : Except Exc (List String) :=
  searchPaAux (pa_list api key) src

/-! ## Console loop -/

/-- What one loop iteration prints (besides the prompt). -/
inductive Output where
  | limitSet (n : Int)
  | limitNotPositive
  | limitUsage
  | notUnderstood
  | noResults
  | results (xs : List String)
  | errorMsg (e : Exc)
  | farewell
deriving DecidableEq, Repr

/-- Result of one loop iteration: continue with a (possibly updated) limit and
an optional printed output, or leave the while loop. -/
inductive Outcome where
  | next (newLimit : Int) (out : Option Output)
  | halt
deriving DecidableEq, Repr

/-- One read at the prompt: a line, or a KeyboardInterrupt / EOFError. -/
inductive Event where
  | line (s : String)
  | interruptEOF
deriving DecidableEq, Repr

/-- The query string after Prompt.ask(...).replace of question marks and
lower-casing, as computed at the top of each query_loop iteration. -/
def normalizeLine (rawLine : String) : String := pyLower (removeQ rawLine)

/-- The token list handed to search_pa_list for a raw input line:
query.split() of the normalized query. -/
def tokenize (rawLine : String) : List String := pySplit (normalizeLine rawLine)

/-- The rebinding of answers in query_loop: the dispatch result is sliced to
the current limit unless it is one of the two sentinel lists. -/
def truncAnswers (limit : Int) (answers : List String) : List String :=
  if answers = ["I don't understand"] ∨ answers = ["No answers"] then answers
  else pySliceTo limit answers

/-- The display step of query_loop, applied to the (already truncated)
answers: the not-understood message, the no-results message, or the numbered
result list. -/
def displayAnswers (limit : Int) (answers : List String) : Outcome :=
  if truncAnswers limit answers = ["I don't understand"] then
    Outcome.next limit (some Output.notUnderstood)
  else if truncAnswers limit answers = ["No answers"] then
    Outcome.next limit (some Output.noResults)
  else Outcome.next limit (some (Output.results (truncAnswers limit answers)))

/-- One iteration of the body of query_loop on an input line, for the current
result limit: the limit command is handled first, then empty input is skipped,
then the dispatcher runs with its result sliced to the limit unless it is one
of the two sentinels; a KeyboardInterrupt from the dispatcher (the bye action)
leaves the loop, any other exception is printed and the loop continues. -/
def processLine (api : Api) (key : String) (limit : Int) (rawLine : String) : Outcome :=
  let query := normalizeLine rawLine
  if pyStartsWith "limit " query then
    match (pySplit query).get? 1 with
    | none => Outcome.next limit (some Output.limitUsage)
    | some w =>
      match pyInt w with
      | none => Outcome.next limit (some Output.limitUsage)
      | some n =>
        if 0 < n then Outcome.next n (some (Output.limitSet n))
        else Outcome.next limit (some Output.limitNotPositive)
  else
    let queryWords := pySplit query
    if queryWords.isEmpty then Outcome.next limit none
    else
      match search_pa_list api key queryWords with
      | Except.error Exc.keyboardInterrupt => Outcome.halt
      | Except.error e => Outcome.next limit (some (Output.errorMsg e))
      | Except.ok answers => displayAnswers limit answers

/-- One loop step on an event: an interrupt or EOF at the prompt leaves the
loop (the try block spans the whole iteration), a line is processed by the
loop body. -/
def loopStep (api : Api) (key : String) (limit : Int) : Event → Outcome
  | Event.interruptEOF => Outcome.halt
  | Event.line s => processLine api key limit s

/-- query_loop run on a finite prefix of the event stream, collecting the
printed outputs; when the loop is left, the farewell line is printed.  An
exhausted event list means the session is still blocked at the prompt. -/
def runLoop (api : Api) (key : String) (limit : Int) : List Event → List Output
  | [] => []
  | ev :: rest =>
    match loopStep api key limit ev with
    | Outcome.halt => [Output.farewell]
    | Outcome.next l none => runLoop api key l rest
    | Outcome.next l (some o) => o :: runLoop api key l rest

/-! ## Definitions following the spec's words, for the refinement claims -/

/-- Modelled from the spec: the first entry of the table whose template
matches, with its bindings, in declaration order. -/
def firstMatch : List (List String × (List String → Except Exc (List String))) →
    List String → Option ((List String → Except Exc (List String)) × List String)
  | [], _ => none
  | (pattern, action) :: rest, src =>
    match matchFn pattern src with
    | some bs => some (action, bs)
    | none => firstMatch rest src

/-- Modelled from the spec: tokenization as the claim words it, with only the
trailing question marks stripped before lower-casing and splitting. -/
def stripTrailingQ (s : String) : String :=
  String.mk ((s.data.reverse.dropWhile (fun c => c = '?')).reverse)

/-- Modelled from the spec: tokens of a raw line per the claim's wording. -/
def tokenizeSpec (rawLine : String) : List String :=
  pySplit (pyLower (stripTrailingQ rawLine))

/-- Modelled from the spec: the limit-command branch of the loop as a function
of the current limit and the normalized query. -/
def limitCommandSpec (limit : Int) (query : String) : Outcome :=
  match (pySplit query).get? 1 with
  | none => Outcome.next limit (some Output.limitUsage)
  | some w =>
    match pyInt w with
    | none => Outcome.next limit (some Output.limitUsage)
    | some n =>
      if 0 < n then Outcome.next n (some (Output.limitSet n))
      else Outcome.next limit (some Output.limitNotPositive)

/-- Number of wildcard tokens of a template. -/
def countWild : List String → Nat
  | [] => 0
  | t :: ts => (if t = "_" ∨ t = "%" then 1 else 0) + countWild ts

/-! ## Lemmas about the matcher -/

/-- When the continuation always yields n bindings, a successful multiScan
yields n + 1 bindings: the capture plus the continuation's bindings. -/
theorem multiScan_length (f : List String → Option (List String)) (n : Nat)
    (hf : ∀ s bs, f s = some bs → bs.length = n) :
    ∀ acc src r, multiScan f acc src = some r → r.length = n + 1 := by
  intro acc src
  induction src generalizing acc with
  | nil => intro r h; simp [multiScan] at h
  | cons s sr ih =>
    intro r h
    rw [multiScan] at h
    cases hfv : f sr with
    | some bs =>
      rw [hfv] at h
      cases h
      simp [hf sr bs hfv]
    | none =>
      rw [hfv] at h
      exact ih _ _ h

/-- A successful match binds exactly one string per wildcard of the template. -/
theorem matchFn_length : ∀ (pattern src bs : List String),
    matchFn pattern src = some bs → bs.length = countWild pattern := by
  intro pattern
  induction pattern with
  | nil =>
    intro src bs h
    cases src with
    | nil =>
      have hb : bs = [] := by simpa [matchFn] using h.symm
      simp [hb, countWild]
    | cons s sr => simp [matchFn] at h
  | cons p pr ih =>
    intro src bs h
    cases src with
    | nil =>
      rw [matchFn.eq_2] at h
      by_cases hp : p = "%"
      · rw [if_pos hp] at h
        simp [multiScan] at h
      · rw [if_neg hp] at h; cases h
    | cons s sr =>
      rw [matchFn.eq_3] at h
      by_cases hp : p = "%"
      · rw [if_pos hp] at h
        have hlen := multiScan_length (matchFn pr) (countWild pr)
          (fun s bs h => ih s bs h) [] (s :: sr) bs h
        simp [countWild, hp, hlen, Nat.add_comm]
      · rw [if_neg hp] at h
        by_cases hu : p = "_"
        · rw [if_pos hu] at h
          cases hm : matchFn pr sr with
          | none => rw [hm] at h; cases h
          | some bs' =>
            rw [hm] at h
            cases h
            simp [countWild, hu, ih sr bs' hm, Nat.add_comm]
        · rw [if_neg hu] at h
          by_cases he : p = s
          · rw [if_pos he] at h
            simp [countWild, hp, hu, ih sr bs h]
          · rw [if_neg he] at h; cases h

/-! ## Lemmas about the dispatcher -/

/-- The dispatcher loop is the first-match-wins selection: its result is
exactly the falsy-coerced output of the first matching entry's action, or the
not-understood sentinel when nothing matches. -/
theorem searchPaAux_firstMatch : ∀ (table : List (List String × (List String → Except Exc (List String)))) src,
    searchPaAux table src =
      match firstMatch table src with
      | none => Except.ok ["I don't understand"]
      | some (a, bs) =>
        match a bs with
        | Except.error e => Except.error e
        | Except.ok answers => Except.ok (if answers.isEmpty then ["No answers"] else answers) := by
  intro table src
  induction table with
  | nil => rfl
  | cons e rest ih =>
    obtain ⟨pattern, action⟩ := e
    rw [searchPaAux, firstMatch]
    cases matchFn pattern src with
    | some bs => rfl
    | none => exact ih

/-- A selected entry really is in the table and really matches. -/
theorem firstMatch_mem : ∀ (table : List (List String × (List String → Except Exc (List String)))) src a bs,
    firstMatch table src = some (a, bs) →
    ∃ pattern, (pattern, a) ∈ table ∧ matchFn pattern src = some bs := by
  intro table src
  induction table with
  | nil => intro a bs h; cases h
  | cons e rest ih =>
    obtain ⟨pattern, action⟩ := e
    intro a bs h
    rw [firstMatch] at h
    cases hm : matchFn pattern src with
    | some bs' =>
      rw [hm] at h
      cases h
      exact ⟨pattern, List.mem_cons_self _ _, hm⟩
    | none =>
      rw [hm] at h
      obtain ⟨q, hq, hmq⟩ := ih a bs h
      exact ⟨q, List.mem_cons_of_mem _ hq, hmq⟩

/-- No entry is selected exactly when no template of the table matches. -/
theorem firstMatch_none_iff : ∀ (table : List (List String × (List String → Except Exc (List String)))) src,
    firstMatch table src = none ↔ ∀ e ∈ table, matchFn e.1 src = none := by
  intro table src
  induction table with
  | nil => simp [firstMatch]
  | cons e rest ih =>
    obtain ⟨pattern, action⟩ := e
    rw [firstMatch]
    cases hm : matchFn pattern src with
    | some bs => simp [hm]
    | none => simpa [hm] using ih

/-! ## Behaviour of the handlers when the API key is absent -/

/-- With an empty key, the year handler answers nothing. -/
theorem title_by_year_noKey (api : Api) (y : String) :
    title_by_year api "" [y] = Except.ok ["No answers"] := rfl

/-- With an empty key, the year-range handler answers nothing. -/
theorem title_by_year_range_noKey (api : Api) (a b : String) :
    title_by_year_range api "" [a, b] = Except.ok ["No answers"] := rfl

/-- With an empty key, the before-year handler still parses its binding first:
an integer binding answers nothing, any other raises ValueError. -/
theorem title_before_year_noKey (api : Api) (y : String) :
    title_before_year api "" [y] = Except.ok ["No answers"] ∨
    title_before_year api "" [y] = Except.error Exc.valueError := by
  cases h : pyInt y with
  | none => right; simp [title_before_year, getIdx, h]
  | some n => left; simp [title_before_year, getIdx, h, search_movies_by_year_range]

/-- With an empty key, the after-year handler still parses its binding first. -/
theorem title_after_year_noKey (api : Api) (y : String) :
    title_after_year api "" [y] = Except.ok ["No answers"] ∨
    title_after_year api "" [y] = Except.error Exc.valueError := by
  cases h : pyInt y with
  | none => right; simp [title_after_year, getIdx, h]
  | some n => left; simp [title_after_year, getIdx, h, search_movies_by_year_range]

/-- With an empty key, the director handler answers nothing. -/
theorem director_by_title_noKey (api : Api) (t : String) :
    director_by_title api "" [t] = Except.ok ["No answers"] := rfl

/-- With an empty key, the filmography handler answers nothing. -/
theorem title_by_director_noKey (api : Api) (t : String) :
    title_by_director api "" [t] = Except.ok ["No answers"] := rfl

/-- With an empty key, the cast handler answers nothing. -/
theorem actors_by_title_noKey (api : Api) (t : String) :
    actors_by_title api "" [t] = Except.ok ["No answers"] := rfl

/-- With an empty key, the year-of-title handler answers nothing. -/
theorem year_by_title_noKey (api : Api) (t : String) :
    year_by_title api "" [t] = Except.ok ["No answers"] := rfl

/-- With an empty key, the actor-filmography handler answers nothing. -/
theorem title_by_actor_noKey (api : Api) (t : String) :
    title_by_actor api "" [t] = Except.ok ["No answers"] := rfl

/-- The dispatcher loop only looks at templates and at the pointwise behaviour
of the actions. -/
theorem searchPaAux_congr :
    ∀ (t1 t2 : List (List String × (List String → Except Exc (List String)))),
    List.Forall₂ (fun e1 e2 => e1.1 = e2.1 ∧ ∀ bs, e1.2 bs = e2.2 bs) t1 t2 →
    ∀ src, searchPaAux t1 src = searchPaAux t2 src := by
  intro t1 t2 h
  induction h with
  | nil => intro _; rfl
  | @cons e1 e2 r1 r2 he _ ih =>
    intro src
    obtain ⟨p1, a1⟩ := e1
    obtain ⟨p2, a2⟩ := e2
    obtain ⟨hpat, hact⟩ := he
    dsimp only at hpat hact
    subst hpat
    rw [searchPaAux, searchPaAux]
    cases matchFn p1 src with
    | some bs => simp only [hact bs]
    | none => exact ih src

/-- With an empty key no handler consults the API, so the whole dispatcher is
independent of it. -/
theorem search_pa_list_noKey_apiIrrel (api : Api) (src : List String) :
    search_pa_list api "" src = search_pa_list emptyApi "" src := by
  refine searchPaAux_congr _ _ ?_ src
  refine List.Forall₂.cons ⟨rfl, fun bs => ?_⟩ ?_
  · cases bs with
    | nil => rfl
    | cons y rest => rfl
  refine List.Forall₂.cons ⟨rfl, fun bs => ?_⟩ ?_
  · cases bs with
    | nil => rfl
    | cons a rest => cases rest with
      | nil => rfl
      | cons b rest2 => rfl
  refine List.Forall₂.cons ⟨rfl, fun bs => ?_⟩ ?_
  · cases bs with
    | nil => rfl
    | cons y rest => rfl
  refine List.Forall₂.cons ⟨rfl, fun bs => ?_⟩ ?_
  · cases bs with
    | nil => rfl
    | cons y rest => rfl
  refine List.Forall₂.cons ⟨rfl, fun bs => ?_⟩ ?_
  · cases bs with
    | nil => rfl
    | cons t rest => rfl
  refine List.Forall₂.cons ⟨rfl, fun bs => ?_⟩ ?_
  · cases bs with
    | nil => rfl
    | cons t rest => rfl
  refine List.Forall₂.cons ⟨rfl, fun bs => ?_⟩ ?_
  · cases bs with
    | nil => rfl
    | cons t rest => rfl
  refine List.Forall₂.cons ⟨rfl, fun bs => ?_⟩ ?_
  · cases bs with
    | nil => rfl
    | cons t rest => rfl
  refine List.Forall₂.cons ⟨rfl, fun bs => ?_⟩ ?_
  · cases bs with
    | nil => rfl
    | cons t rest => rfl
  refine List.Forall₂.cons ⟨rfl, fun bs => ?_⟩ ?_
  · cases bs with
    | nil => rfl
    | cons t rest => rfl
  refine List.Forall₂.cons ⟨rfl, fun _ => rfl⟩ List.Forall₂.nil

/-- With an empty key every dispatched query yields the no-answers sentinel,
the not-understood sentinel, a ValueError (the before-year or after-year
handler with a binding int() rejects) or the KeyboardInterrupt of bye. -/
theorem search_pa_list_noKey_cases (api : Api) (src : List String) :
    search_pa_list api "" src = Except.ok ["No answers"] ∨
    search_pa_list api "" src = Except.ok ["I don't understand"] ∨
    search_pa_list api "" src = Except.error Exc.valueError ∨
    search_pa_list api "" src = Except.error Exc.keyboardInterrupt := by
  unfold search_pa_list
  rw [searchPaAux_firstMatch]
  cases hfm : firstMatch (pa_list api "") src with
  | none => right; left; rfl
  | some pr =>
    obtain ⟨a, bs⟩ := pr
    obtain ⟨pattern, hmem, hmatch⟩ := firstMatch_mem _ _ _ _ hfm
    have hlen := matchFn_length pattern src bs hmatch
    simp only [pa_list, List.mem_cons, List.not_mem_nil, or_false, Prod.mk.injEq] at hmem
    rcases hmem with ⟨hpA, haA⟩ | ⟨hpB, haB⟩ | ⟨hpC, haC⟩ | ⟨hpD, haD⟩ | ⟨hpE, haE⟩ |
      ⟨hpF, haF⟩ | ⟨hpG, haG⟩ | ⟨hpH, haH⟩ | ⟨hpI, haI⟩ | ⟨hpJ, haJ⟩ | ⟨hpK, haK⟩
    · subst hpA; subst haA
      obtain ⟨y, rfl⟩ := List.length_eq_one.mp (by rw [hlen]; rfl)
      exact Or.inl rfl
    · subst hpB; subst haB
      obtain ⟨x, y, rfl⟩ := List.length_eq_two.mp (by rw [hlen]; rfl)
      exact Or.inl rfl
    · subst hpC; subst haC
      obtain ⟨y, rfl⟩ := List.length_eq_one.mp (by rw [hlen]; rfl)
      rcases title_before_year_noKey api y with h | h
      · exact Or.inl (by simp [h])
      · exact Or.inr (Or.inr (Or.inl (by simp [h])))
    · subst hpD; subst haD
      obtain ⟨y, rfl⟩ := List.length_eq_one.mp (by rw [hlen]; rfl)
      rcases title_after_year_noKey api y with h | h
      · exact Or.inl (by simp [h])
      · exact Or.inr (Or.inr (Or.inl (by simp [h])))
    · subst hpE; subst haE
      obtain ⟨y, rfl⟩ := List.length_eq_one.mp (by rw [hlen]; rfl)
      exact Or.inl rfl
    · subst hpF; subst haF
      obtain ⟨y, rfl⟩ := List.length_eq_one.mp (by rw [hlen]; rfl)
      exact Or.inl rfl
    · subst hpG; subst haG
      obtain ⟨y, rfl⟩ := List.length_eq_one.mp (by rw [hlen]; rfl)
      exact Or.inl rfl
    · subst hpH; subst haH
      obtain ⟨y, rfl⟩ := List.length_eq_one.mp (by rw [hlen]; rfl)
      exact Or.inl rfl
    · subst hpI; subst haI
      obtain ⟨y, rfl⟩ := List.length_eq_one.mp (by rw [hlen]; rfl)
      exact Or.inl rfl
    · subst hpJ; subst haJ
      obtain ⟨y, rfl⟩ := List.length_eq_one.mp (by rw [hlen]; rfl)
      exact Or.inl rfl
    · subst hpK; subst haK
      have hb : bs = [] := List.length_eq_zero.mp (by rw [hlen]; rfl)
      subst hb
      exact Or.inr (Or.inr (Or.inr rfl))

/-! ## Lemmas about the loop body -/

/-- A line whose normalized query starts with the limit prefix is handled
entirely by the limit branch. -/
theorem processLine_limit (api : Api) (key : String) (limit : Int) (rawLine : String)
    (h : pyStartsWith "limit " (normalizeLine rawLine) = true) :
    processLine api key limit rawLine = limitCommandSpec limit (normalizeLine rawLine) := by
  rw [processLine, limitCommandSpec]
  simp only [h, if_true]

/-- A line that is not the limit command and tokenizes to a non-empty word
list is dispatched, and the loop body reacts to the dispatch result. -/
theorem processLine_dispatch (api : Api) (key : String) (limit : Int) (rawLine : String)
    (hlim : pyStartsWith "limit " (normalizeLine rawLine) = false)
    (htok : tokenize rawLine ≠ []) :
    processLine api key limit rawLine =
      match search_pa_list api key (tokenize rawLine) with
      | Except.error Exc.keyboardInterrupt => Outcome.halt
      | Except.error e => Outcome.next limit (some (Output.errorMsg e))
      | Except.ok answers => displayAnswers limit answers := by
  have hne : (pySplit (normalizeLine rawLine)).isEmpty = false := by
    cases hsp : pySplit (normalizeLine rawLine) with
    | nil => exact absurd (by rw [tokenize]; exact hsp) htok
    | cons a t => rfl
  rw [processLine]
  simp only [hlim, Bool.false_eq_true, if_false, hne, tokenize]

/-- A dispatch exception other than KeyboardInterrupt is printed and the loop
continues with the same limit. -/
theorem processLine_error (api : Api) (key : String) (limit : Int) (rawLine : String)
    (hlim : pyStartsWith "limit " (normalizeLine rawLine) = false)
    (htok : tokenize rawLine ≠ []) (e : Exc) (he : e ≠ Exc.keyboardInterrupt)
    (hd : search_pa_list api key (tokenize rawLine) = Except.error e) :
    processLine api key limit rawLine = Outcome.next limit (some (Output.errorMsg e)) := by
  rw [processLine_dispatch api key limit rawLine hlim htok, hd]
  cases e with
  | valueError => rfl
  | indexError => rfl
  | keyboardInterrupt => exact absurd rfl he

/-- A KeyboardInterrupt from the dispatch (the bye action) leaves the loop. -/
theorem processLine_haltOnInterrupt (api : Api) (key : String) (limit : Int) (rawLine : String)
    (hlim : pyStartsWith "limit " (normalizeLine rawLine) = false)
    (htok : tokenize rawLine ≠ [])
    (hd : search_pa_list api key (tokenize rawLine) = Except.error Exc.keyboardInterrupt) :
    processLine api key limit rawLine = Outcome.halt := by
  rw [processLine_dispatch api key limit rawLine hlim htok, hd]

/-- With a non-sentinel dispatch result the truncation step is exactly the
slice to the current limit. -/
theorem truncAnswers_slice (limit : Int) (answers : List String)
    (h1 : answers ≠ ["I don't understand"]) (h2 : answers ≠ ["No answers"]) :
    truncAnswers limit answers = pySliceTo limit answers := by
  unfold truncAnswers
  simp [h1, h2]

/-- The display step never leaves the loop. -/
theorem displayAnswers_ne_halt (limit : Int) (answers : List String) :
    displayAnswers limit answers ≠ Outcome.halt := by
  unfold displayAnswers
  by_cases hA : truncAnswers limit answers = ["I don't understand"]
  · simp [hA]
  · by_cases hB : truncAnswers limit answers = ["No answers"]
    · simp [hA, hB]
    · simp [hA, hB]

/-- A normal dispatch result that is not a sentinel, and stays distinct from
both sentinels after slicing, is displayed as its slice to the current limit. -/
theorem processLine_results (api : Api) (key : String) (limit : Int) (rawLine : String)
    (hlim : pyStartsWith "limit " (normalizeLine rawLine) = false)
    (htok : tokenize rawLine ≠ []) (answers : List String)
    (hd : search_pa_list api key (tokenize rawLine) = Except.ok answers)
    (h1 : answers ≠ ["I don't understand"]) (h2 : answers ≠ ["No answers"])
    (h3 : pySliceTo limit answers ≠ ["I don't understand"])
    (h4 : pySliceTo limit answers ≠ ["No answers"]) :
    processLine api key limit rawLine =
      Outcome.next limit (some (Output.results (pySliceTo limit answers))) := by
  rw [processLine_dispatch api key limit rawLine hlim htok, hd]
  show displayAnswers limit answers = _
  unfold displayAnswers
  rw [truncAnswers_slice limit answers h1 h2]
  simp [h3, h4]

/-- Whatever the dispatcher returns normally is a non-empty list. -/
theorem searchPaAux_ok_ne_nil : ∀ (table : List (List String × (List String → Except Exc (List String)))) src r,
    searchPaAux table src = Except.ok r → r ≠ [] := by
  intro table src
  induction table with
  | nil => intro r h; cases h; simp
  | cons e rest ih =>
    obtain ⟨pattern, action⟩ := e
    intro r h
    rw [searchPaAux] at h
    split at h
    · split at h
      · cases h
      · next answers heq =>
        cases h
        by_cases hemp : answers = []
        · simp [hemp]
        · simp [hemp]
    · exact ih r h

/-- The year handler never returns more than 10 answers: it slices the API
result to its first 10 movies itself. -/
theorem title_by_year_cap (api : Api) (key : String) (ms r : List String)
    (h : title_by_year api key ms = Except.ok r) : r.length ≤ 10 := by
  rw [title_by_year] at h
  cases hg : getIdx ms 0 with
  | error e => rw [hg] at h; cases h
  | ok year =>
    rw [hg] at h
    by_cases hemp : (search_movies_by_year api key year).isEmpty
    · simp only [hemp, if_true] at h
      cases h
      simp
    · simp only [hemp, if_false] at h
      cases h
      simp only [List.length_map, List.length_take]
      omega

/-- The limit branch never leaves the loop. -/
theorem limitCommandSpec_ne_halt (limit : Int) (q : String) :
    limitCommandSpec limit q ≠ Outcome.halt := by
  unfold limitCommandSpec
  cases h1 : (pySplit q).get? 1 with
  | none => simp
  | some w =>
    simp only []
    cases h2 : pyInt w with
    | none => simp
    | some n =>
      simp only []
      by_cases hn : 0 < n
      · simp [hn]
      · simp [hn]

/-- The loop body leaves the loop exactly when the line is a dispatched
non-empty query on which the dispatch raises KeyboardInterrupt. -/
theorem processLine_halt_iff (api : Api) (key : String) (limit : Int) (rawLine : String) :
    processLine api key limit rawLine = Outcome.halt ↔
      pyStartsWith "limit " (normalizeLine rawLine) = false ∧
      tokenize rawLine ≠ [] ∧
      search_pa_list api key (tokenize rawLine) = Except.error Exc.keyboardInterrupt := by
  constructor
  · intro h
    cases hb : pyStartsWith "limit " (normalizeLine rawLine) with
    | true =>
      exact absurd (processLine_limit api key limit rawLine hb ▸ h)
        (limitCommandSpec_ne_halt limit (normalizeLine rawLine))
    | false =>
      by_cases htok : tokenize rawLine = []
      · have hemp : (pySplit (normalizeLine rawLine)).isEmpty = true := by
          have hq : pySplit (normalizeLine rawLine) = [] := htok
          rw [hq]; rfl
        rw [processLine] at h
        simp only [hb, Bool.false_eq_true, if_false, hemp, if_true] at h
        cases h
      · rw [processLine_dispatch api key limit rawLine hb htok] at h
        refine ⟨rfl, htok, ?_⟩
        cases hd : search_pa_list api key (tokenize rawLine) with
        | error e =>
          rw [hd] at h
          cases e with
          | valueError => cases h
          | indexError => cases h
          | keyboardInterrupt => rfl
        | ok answers =>
          rw [hd] at h
          exact absurd h (displayAnswers_ne_halt limit answers)
  · rintro ⟨hlim, htok, hd⟩
    exact processLine_haltOnInterrupt api key limit rawLine hlim htok hd

/-! ## Lemmas about tokenization of lines with only trailing question marks -/

/-- Every question mark of a pure question-mark run is removed. -/
theorem filterQ_replicate (k : Nat) :
    (List.replicate k '?').filter (fun c => c ≠ '?') = [] := by
  induction k with
  | zero => rfl
  | succ n ih => simp [List.replicate_succ, ih]

/-- Removing question marks from a line whose question marks are all trailing
leaves exactly the body. -/
theorem removeQ_trailing (body : String) (k : Nat) (h : ∀ c ∈ body.data, ¬ c = '?') :
    removeQ (body ++ String.mk (List.replicate k '?')) = body := by
  unfold removeQ
  rw [show (body ++ String.mk (List.replicate k '?')).data =
      body.data ++ List.replicate k '?' from rfl]
  rw [List.filter_append, filterQ_replicate, List.append_nil]
  rw [List.filter_eq_self.mpr]
  · intro c hc
    simpa using h c hc

/-- Dropping a leading question-mark run. -/
theorem dropWhileQ_replicate_append (k : Nat) (l : List Char) :
    (List.replicate k '?' ++ l).dropWhile (fun c => c = '?') =
      l.dropWhile (fun c => c = '?') := by
  induction k with
  | zero => rfl
  | succ n ih => simp [List.replicate_succ, List.dropWhile_cons, ih]

/-- A list without question marks survives the drop unchanged. -/
theorem dropWhileQ_no (l : List Char) (h : ∀ c ∈ l, ¬ c = '?') :
    l.dropWhile (fun c => c = '?') = l := by
  cases l with
  | nil => rfl
  | cons c cs =>
    rw [List.dropWhile_cons]
    simp [h c (List.mem_cons_self c cs)]

/-- Stripping trailing question marks from a line whose question marks are all
trailing leaves exactly the body. -/
theorem stripTrailingQ_trailing (body : String) (k : Nat) (h : ∀ c ∈ body.data, ¬ c = '?') :
    stripTrailingQ (body ++ String.mk (List.replicate k '?')) = body := by
  unfold stripTrailingQ
  rw [show (body ++ String.mk (List.replicate k '?')).data =
      body.data ++ List.replicate k '?' from rfl]
  rw [List.reverse_append, List.reverse_replicate]
  rw [dropWhileQ_replicate_append]
  rw [dropWhileQ_no _ (fun c hc => h c (List.mem_reverse.mp hc))]
  rw [List.reverse_reverse]

/-! ## The claims -/

/-- C1 (counterexample): the claimed equivalence fails in one direction: when
the discover endpoint returns a movie whose title is the literal sentinel
string, the year template matches yet search_pa_list returns the
not-understood sentinel, so that return value does not imply that no template
matched. -/
theorem claim1_counterexample :
    search_pa_list apiSentinel "key" ["what", "movies", "were", "made", "in", "2020"] =
      Except.ok ["I don't understand"] ∧
    matchFn ["what", "movies", "were", "made", "in", "_"]
      ["what", "movies", "were", "made", "in", "2020"] = some ["2020"] :=
  ⟨rfl, rfl⟩

/-- C1 (amended): if no template of the table matches, search_pa_list returns
the not-understood sentinel; if the first matching entry yields an answer
list, the dispatcher returns it with an empty list coerced to the no-answers
sentinel; and the two sentinel lists are distinct.  (The converse of the
first part fails when API data contains the sentinel string itself.) -/
theorem claim1_amended (api : Api) (key : String) (src : List String) :
    ((∀ e ∈ pa_list api key, matchFn e.1 src = none) →
      search_pa_list api key src = Except.ok ["I don't understand"]) ∧
    (∀ a bs answers, firstMatch (pa_list api key) src = some (a, bs) →
      a bs = Except.ok answers →
      search_pa_list api key src =
        Except.ok (if answers.isEmpty then ["No answers"] else answers)) ∧
    (["I don't understand"] : List String) ≠ ["No answers"] := by
  refine ⟨?_, ?_, by simp⟩
  · intro h
    unfold search_pa_list
    rw [searchPaAux_firstMatch, (firstMatch_none_iff _ _).mpr h]
  · intro a bs answers hfm hab
    unfold search_pa_list
    rw [searchPaAux_firstMatch, hfm]
    simp [hab]

/-- C1 (witness): both branches of the amended statement at concrete inputs:
an unmatched query yields the not-understood sentinel, and a matched query
whose handler answers the no-answers list yields exactly that list. -/
theorem claim1_witness :
    search_pa_list emptyApi "" ["xyzzy", "plugh"] = Except.ok ["I don't understand"] ∧
    search_pa_list emptyApi "" ["what", "movies", "were", "made", "in", "2020"] =
      Except.ok ["No answers"] := by
  constructor
  · exact (claim1_amended emptyApi "" ["xyzzy", "plugh"]).1 (by decide)
  · exact (claim1_amended emptyApi "" ["what", "movies", "were", "made", "in", "2020"]).2.1
      (title_by_year emptyApi "") ["2020"] ["No answers"] rfl rfl

/-- C2: the dispatcher result is determined by the first entry of the table,
in declaration order, whose template matches: that entry alone supplies the
handler that runs, with its empty result coerced to the no-answers sentinel,
and exhausting the table yields the not-understood sentinel. -/
theorem claim2_first_match_wins (api : Api) (key : String) (src : List String) :
    search_pa_list api key src =
      match firstMatch (pa_list api key) src with
      | none => Except.ok ["I don't understand"]
      | some (a, bs) =>
        match a bs with
        | Except.error e => Except.error e
        | Except.ok answers => Except.ok (if answers.isEmpty then ["No answers"] else answers) :=
  searchPaAux_firstMatch (pa_list api key) src

/-- C3 (counterexample): with no API key configured the query tokens
"what movies were made before abc" raise ValueError out of the dispatcher
(int() runs on the binding before the key is consulted), refuting the claim
that no handler can crash for every input token sequence. -/
theorem claim3_counterexample :
    search_pa_list emptyApi "" ["what", "movies", "were", "made", "before", "abc"] =
      Except.error Exc.valueError := rfl

/-- C3 (amended): with an empty API key the dispatcher never consults the
network (its result is the same for every API), and every token sequence
yields the no-answers sentinel or the not-understood sentinel, except that
the before-year or after-year templates raise ValueError when int() rejects
the year binding, and bye raises the KeyboardInterrupt termination signal. -/
theorem claim3_amended (api : Api) (src : List String) :
    search_pa_list api "" src = search_pa_list emptyApi "" src ∧
    (search_pa_list api "" src = Except.ok ["No answers"] ∨
     search_pa_list api "" src = Except.ok ["I don't understand"] ∨
     search_pa_list api "" src = Except.error Exc.valueError ∨
     search_pa_list api "" src = Except.error Exc.keyboardInterrupt) :=
  ⟨search_pa_list_noKey_apiIrrel api src, search_pa_list_noKey_cases api src⟩

/-- C4 (counterexample): the year handler truncates inside the handler: for
an API response of eleven movies it returns only the first ten titles, so a
handler does not return every answer it derives from the API response. -/
theorem claim4_counterexample :
    title_by_year apiEleven "key" ["2020"] = Except.ok (List.replicate 10 "t") ∧
    ((apiEleven.discoverByYear "2020").getD []).length = 11 ∧
    (List.replicate 10 "t" : List String).length ≠ 11 :=
  ⟨rfl, rfl, by decide⟩

/-- C4 (amended): truncation to the user-configurable limit is indeed applied
only after dispatch, in the console loop, as a pure slice of the handler
result; but the handlers themselves additionally cap their lists (the year
handler returns at most the first 10 titles of the API response). -/
theorem claim4_amended (api : Api) (key : String) (limit : Int) (rawLine : String)
    (answers : List String)
    (hlim : pyStartsWith "limit " (normalizeLine rawLine) = false)
    (htok : tokenize rawLine ≠ [])
    (hd : search_pa_list api key (tokenize rawLine) = Except.ok answers)
    (h1 : answers ≠ ["I don't understand"]) (h2 : answers ≠ ["No answers"])
    (h3 : pySliceTo limit answers ≠ ["I don't understand"])
    (h4 : pySliceTo limit answers ≠ ["No answers"]) :
    processLine api key limit rawLine =
      Outcome.next limit (some (Output.results (pySliceTo limit answers))) ∧
    ∀ (api2 : Api) (key2 : String) (ms r : List String),
      title_by_year api2 key2 ms = Except.ok r → r.length ≤ 10 :=
  ⟨processLine_results api key limit rawLine hlim htok answers hd h1 h2 h3 h4,
   fun api2 key2 ms r h => title_by_year_cap api2 key2 ms r h⟩

/-- C4 (witness): the amended statement at a concrete query against the
eleven-movie API with limit 3: the loop displays the first three of the ten
titles the handler returned. -/
theorem claim4_witness :
    processLine apiEleven "key" 3 "what movies were made in 2020" =
      Outcome.next 3 (some (Output.results (pySliceTo 3 (List.replicate 10 "t")))) :=
  (claim4_amended apiEleven "key" 3 "what movies were made in 2020" (List.replicate 10 "t")
    (by decide) (by decide) rfl (by decide) (by decide) (by decide) (by decide)).1

/-- C5 (counterexample): the bare line "limit" (a missing argument) is not
handled by the limit branch at all: it is dispatched as an ordinary query and
answered with the not-understood message, not with a usage error (the limit
is nevertheless unchanged). -/
theorem claim5_counterexample :
    processLine emptyApi "" 10 "limit" = Outcome.next 10 (some Output.notUnderstood) ∧
    Output.notUnderstood ≠ Output.limitUsage ∧
    Output.notUnderstood ≠ Output.limitNotPositive :=
  ⟨rfl, by decide, by decide⟩

/-- C5 (amended): a line whose normalized form starts with the limit prefix
is handled by the limit branch: a positive integer argument sets the limit
and anything else (non-integer, missing second token, non-positive) leaves
the limit unchanged with an error message; and with limit n set, a query
dispatching to at least n answers (no sentinel collisions) displays exactly
n of them.  A bare "limit" line bypasses this branch entirely. -/
theorem claim5_amended (api : Api) (key : String) (limit : Int) (rawLine : String) :
    (pyStartsWith "limit " (normalizeLine rawLine) = true →
      processLine api key limit rawLine = limitCommandSpec limit (normalizeLine rawLine)) ∧
    (∀ (n : Int) (answers : List String),
      0 < n →
      pyStartsWith "limit " (normalizeLine rawLine) = false →
      tokenize rawLine ≠ [] →
      search_pa_list api key (tokenize rawLine) = Except.ok answers →
      answers ≠ ["I don't understand"] → answers ≠ ["No answers"] →
      pySliceTo n answers ≠ ["I don't understand"] →
      pySliceTo n answers ≠ ["No answers"] →
      n.toNat ≤ answers.length →
      processLine api key n rawLine =
        Outcome.next n (some (Output.results (pySliceTo n answers))) ∧
      (pySliceTo n answers).length = n.toNat) := by
  constructor
  · intro h
    exact processLine_limit api key limit rawLine h
  · intro n answers hn hlim htok hd h1 h2 h3 h4 hle
    refine ⟨processLine_results api key n rawLine hlim htok answers hd h1 h2 h3 h4, ?_⟩
    unfold pySliceTo
    rw [if_pos (le_of_lt hn), List.length_take]
    omega

/-- C5 (witness): "limit 5" sets the limit to 5, and a subsequent query whose
handler returns ten answers displays exactly five of them. -/
theorem claim5_witness :
    processLine apiEleven "key" 10 "limit 5" = Outcome.next 5 (some (Output.limitSet 5)) ∧
    processLine apiEleven "key" 5 "what movies were made in 2020" =
      Outcome.next 5 (some (Output.results (pySliceTo 5 (List.replicate 10 "t")))) ∧
    (pySliceTo 5 (List.replicate 10 "t")).length = (5 : Int).toNat := by
  refine ⟨?_, ?_, ?_⟩
  · exact ((claim5_amended apiEleven "key" 10 "limit 5").1 (by decide)).trans (by decide)
  · exact ((claim5_amended apiEleven "key" 10 "what movies were made in 2020").2 5
      (List.replicate 10 "t") (by decide) (by decide) (by decide) rfl (by decide)
      (by decide) (by decide) (by decide) (by decide)).1
  · exact ((claim5_amended apiEleven "key" 10 "what movies were made in 2020").2 5
      (List.replicate 10 "t") (by decide) (by decide) (by decide) rfl (by decide)
      (by decide) (by decide) (by decide) (by decide)).2

/-- C6 (counterexample): the code removes every question mark, not only the
trailing ones: on the line "a?b" the code tokenizes to the single token "ab",
while stripping only trailing question marks would keep "a?b". -/
theorem claim6_counterexample :
    tokenize "a?b" = ["ab"] ∧ tokenizeSpec "a?b" = ["a?b"] ∧
    (["ab"] : List String) ≠ ["a?b"] :=
  ⟨rfl, rfl, by decide⟩

/-- C6 (amended): for lines whose question marks occur only as a trailing
run, the tokens equal the claimed trailing-strip tokenization (lowercased and
split on whitespace); in particular the input "who directed inception?"
yields exactly the tokens who, directed, inception. -/
theorem claim6_amended (body : String) (k : Nat) (h : ∀ c ∈ body.data, ¬ c = '?') :
    tokenize (body ++ String.mk (List.replicate k '?')) =
      tokenizeSpec (body ++ String.mk (List.replicate k '?')) ∧
    tokenize "who directed inception?" = ["who", "directed", "inception"] := by
  refine ⟨?_, rfl⟩
  unfold tokenize tokenizeSpec normalizeLine
  rw [removeQ_trailing body k h, stripTrailingQ_trailing body k h]

/-- C6 (witness): the amended statement at the spec example line. -/
theorem claim6_witness :
    tokenize ("who directed inception" ++ String.mk (List.replicate 1 '?')) =
      tokenizeSpec ("who directed inception" ++ String.mk (List.replicate 1 '?')) ∧
    tokenize "who directed inception?" = ["who", "directed", "inception"] :=
  claim6_amended "who directed inception" 1 (by decide)

/-- C7: the loop ends only on an interrupt or EOF at the prompt or on the
KeyboardInterrupt raised by the bye action, printing the farewell; any other
dispatch exception is printed as an error message and the loop continues with
the same limit. -/
theorem claim7_loop_containment (api : Api) (key : String) (limit : Int) :
    (∀ rest, runLoop api key limit (Event.interruptEOF :: rest) = [Output.farewell]) ∧
    (∀ s rest e, e ≠ Exc.keyboardInterrupt →
      pyStartsWith "limit " (normalizeLine s) = false → tokenize s ≠ [] →
      search_pa_list api key (tokenize s) = Except.error e →
      runLoop api key limit (Event.line s :: rest) =
        Output.errorMsg e :: runLoop api key limit rest) ∧
    (∀ rest, runLoop api key limit (Event.line "bye" :: rest) = [Output.farewell]) ∧
    (∀ s, processLine api key limit s = Outcome.halt ↔
      (pyStartsWith "limit " (normalizeLine s) = false ∧ tokenize s ≠ [] ∧
       search_pa_list api key (tokenize s) = Except.error Exc.keyboardInterrupt)) := by
  refine ⟨fun rest => rfl, ?_, fun rest => rfl, fun s => processLine_halt_iff api key limit s⟩
  intro s rest e he hlim htok hd
  rw [runLoop]
  have hp := processLine_error api key limit s hlim htok e he hd
  simp only [loopStep, hp]

/-- C7 (witness): a ValueError from one query is printed and the session goes
on to process the next line, where bye ends it with the farewell. -/
theorem claim7_witness :
    runLoop emptyApi "" 10
      [Event.line "what movies were made before abc", Event.line "bye"] =
      [Output.errorMsg Exc.valueError, Output.farewell] := by
  rw [(claim7_loop_containment emptyApi "" 10).2.1 "what movies were made before abc"
    [Event.line "bye"] Exc.valueError (by decide) (by decide) (by decide) rfl]
  rfl

/-- C8: the matcher is a total function: on every template and input it
yields either no-match or some bindings list; a successful match can carry
zero bindings, no-match is attained, and the two values are distinct. -/
theorem claim8_matcher_total :
    (∀ template input : List String,
      matchFn template input = none ∨ ∃ bs, matchFn template input = some bs) ∧
    matchFn ["bye"] ["bye"] = some [] ∧
    matchFn ["bye"] ["hi"] = none ∧
    (some ([] : List String) ≠ (none : Option (List String))) := by
  refine ⟨fun t i => ?_, rfl, rfl, by simp⟩
  cases h : matchFn t i with
  | none => exact Or.inl rfl
  | some bs => exact Or.inr ⟨bs, rfl⟩

/-- C9: a trailing multi-wildcard captures all remaining input tokens joined
with spaces: the director template matched against the five-token question
binds exactly the string "the dark knight". -/
theorem claim9_multi_wildcard_capture :
    matchFn ["who", "directed", "%"] ["who", "directed", "the", "dark", "knight"] =
      some ["the dark knight"] := rfl

/-- C10: whenever search_pa_list returns normally its value is a non-empty
list of strings: a falsy handler result is replaced by the no-answers
sentinel and an exhausted table yields the not-understood sentinel. -/
theorem claim10_result_nonempty (api : Api) (key : String) (src : List String)
    (r : List String) (h : search_pa_list api key src = Except.ok r) : r ≠ [] :=
  searchPaAux_ok_ne_nil (pa_list api key) src r h

/-- C10 (witness): the theorem applied to a concrete unmatched query. -/
theorem claim10_witness :
    search_pa_list emptyApi "" ["xyzzy"] = Except.ok ["I don't understand"] ∧
    (["I don't understand"] : List String) ≠ [] :=
  ⟨rfl, claim10_result_nonempty emptyApi "" ["xyzzy"] ["I don't understand"] rfl⟩

end TmdbCli
